import Mathlib

/-!
Shallow embedding of the availability prediction and trip confidence engine
of a Toronto bike-share terminal dashboard (source file `src/bikes.py`).

The embedding covers the geospatial locator (`find_nearby_stations`), the
availability classifier (`get_prediction_for_stations`), the trip confidence
aggregator (`likelihood_to_score`, `score_to_likelihood`,
`calculate_trip_confidence`, `get_trip_message`), the leave-by projection
(`calculate_leave_by_time`) and the dashboard trip-summary assembly
(the relevant slice of `get_dashboard_data`).

Modelling conventions:
* Python floats are modelled as rationals (`ℚ`); `round(x, 1)` is modelled as
  round-half-to-even at one decimal (`roundPy1`).
* The current weekday (`datetime.now().weekday()`) is a `Fin 7` index into the
  day-name tables, and the current hour is a `Nat`.
* A pattern dictionary entry is modelled by total lookup functions that build
  in the chained `.get(..., default)` semantics of the source: a missing day
  or hour key yields net flow `0`, and a missing `depletion_risk` day entry
  yields `none`.
* The whole prediction document is an `Option PatternTable`; `none` models the
  cases `predictions is None` / no `"patterns"` key, in which the source
  returns `None`.
* The haversine distance involves transcendental functions on floats; it is
  abstracted as an arbitrary function parameter `dist`, so every locator
  property is proved for all possible distance functions.
-/

/-- Likelihood levels; the source uses the strings "HIGH"/"MEDIUM"/"LOW". -/
inductive Likelihood
  | HIGH
  | MEDIUM
  | LOW
deriving DecidableEq

/-- Source constant `NUM_PREDICTION_STATIONS = 2`. -/
def NUM_PREDICTION_STATIONS : Nat := 2

/-- Source constant `ABSOLUTE_BIKE_FLOOR = 5`. -/
def ABSOLUTE_BIKE_FLOOR : Int := 5

/-- Source constant `ABSOLUTE_DOCK_FLOOR = 5`. -/
def ABSOLUTE_DOCK_FLOOR : Int := 5

/-- Source constant `TRIP_BIKE_WEIGHT = 0.6`. -/
def TRIP_BIKE_WEIGHT : ℚ := 0.6

/-- Source constant `TRIP_DOCK_WEIGHT = 0.4`. -/
def TRIP_DOCK_WEIGHT : ℚ := 0.4

/-- Source constant `TRIP_HIGH_THRESHOLD = 2.5`. -/
def TRIP_HIGH_THRESHOLD : ℚ := 2.5

/-- Source constant `TRIP_MEDIUM_THRESHOLD = 1.8`. -/
def TRIP_MEDIUM_THRESHOLD : ℚ := 1.8

/-- Source constant `LEAVE_BY_BUFFER_MINUTES = 30`. -/
def LEAVE_BY_BUFFER_MINUTES : ℚ := 30

/-- Source constant `LEAVE_BY_MAX_HOURS = 1`. -/
def LEAVE_BY_MAX_HOURS : ℚ := 1

/-- Source constant `DAY_FULL_NAMES`. -/
def DAY_FULL_NAMES : List String :=
  ["Monday", "Tuesday", "Wednesday", "Thursday", "Friday", "Saturday", "Sunday"]

/-- Lookup `DAY_FULL_NAMES[now.weekday()]`. -/
def dayFullName (d : Fin 7) : String :=
  DAY_FULL_NAMES.getD d.val ""

/-- Source `format_hour_12h`: format an hour to 12-hour format. -/
def format_hour_12h (hour : Int) : String :=
  if hour = 0 then "12 AM"
  else if hour = 12 then "12 PM"
  else if hour < 12 then toString hour ++ " AM"
  else toString (hour - 12) ++ " PM"

/-- Round half to even to an integer (the rounding mode of Python `round`). -/
def roundHalfEven (q : ℚ) : Int :=
  if q - ⌊q⌋ < 1 / 2 then ⌊q⌋
  else if q - ⌊q⌋ > 1 / 2 then ⌊q⌋ + 1
  else if ⌊q⌋ % 2 = 0 then ⌊q⌋ else ⌊q⌋ + 1

/-- Model of Python `round(x, 1)`: round half to even at one decimal place. -/
def roundPy1 (q : ℚ) : ℚ :=
  (roundHalfEven (q * 10) : ℚ) / 10

/-- Static station record from the `station_information` feed
(the fields the source reads). -/
structure StationInfo where
  name : String
  lat : ℚ
  lon : ℚ
  capacity : Option Int
  address : Option String
  is_charging_station : Option Bool
deriving DecidableEq

/-- Live station record from the `station_status` feed
(the fields the source reads; all are read with `.get`, hence `Option`). -/
structure StationStatus where
  status : Option String
  num_bikes_available : Option Int
  num_ebikes_available : Option Int
  num_docks_available : Option Int
deriving DecidableEq

/-- Merged station dictionary built by `find_nearby_stations` and consumed by
the classifier and the dashboard. -/
structure Station where
  id : String
  name : String
  address : String
  lat : ℚ
  lon : ℚ
  capacity : Int
  is_charging : Bool
  bikes_available : Int
  ebikes_available : Int
  docks_available : Int
  distance : ℚ
deriving DecidableEq

/-- Entry of the merged-station list for one eligible station, mirroring the
dictionary literal appended in `find_nearby_stations`. -/
def mkStationEntry (dist : ℚ → ℚ → ℚ → ℚ → ℚ) (target_lat target_lon : ℚ)
    (station_id : String) (info : StationInfo) (status : StationStatus) : Station :=
  { id := station_id
    name := info.name
    address := info.address.getD info.name
    lat := info.lat
    lon := info.lon
    capacity := info.capacity.getD 0
    is_charging := info.is_charging_station.getD false
    bikes_available := status.num_bikes_available.getD 0
    ebikes_available := status.num_ebikes_available.getD 0
    docks_available := status.num_docks_available.getD 0
    distance := dist target_lat target_lon info.lat info.lon }

/-- Stations of the info feed that are present in the status feed and in
service, in feed order (the loop body of `find_nearby_stations` before the
sort). -/
def eligibleStations (dist : ℚ → ℚ → ℚ → ℚ → ℚ) (target_lat target_lon : ℚ)
    (stations_info : List (String × StationInfo))
    (stations_status : List (String × StationStatus)) : List Station :=
  stations_info.filterMap fun p =>
    match stations_status.lookup p.1 with
    | none => none
    | some status =>
      if status.status = some "IN_SERVICE" then
        some (mkStationEntry dist target_lat target_lon p.1 p.2 status)
      else none

/-- Source `find_nearby_stations`: filter to in-service stations present in
both feeds, sort stably by distance, return the closest `num_stations`. -/
def find_nearby_stations (dist : ℚ → ℚ → ℚ → ℚ → ℚ) (target_lat target_lon : ℚ)
    (stations_info : List (String × StationInfo))
    (stations_status : List (String × StationStatus))
    (num_stations : Nat) : List Station :=
  ((eligibleStations dist target_lat target_lon stations_info stations_status).mergeSort
    fun a b => decide (a.distance ≤ b.distance)).take num_stations

/-- Depletion-risk entry `{hour, severity}` of a pattern. -/
structure DepletionRisk where
  hour : Int
  severity : ℚ
deriving DecidableEq

/-- Historical pattern of one station.  `netFlow d h` models
`pattern.get("net_flow", {}).get(day_name, {}).get(hour_str, 0)` and
`depletionRisk d` models `pattern.get("depletion_risk", {}).get(day_name)`. -/
structure Pattern where
  netFlow : Fin 7 → Nat → ℚ
  depletionRisk : Fin 7 → Option DepletionRisk

/-- The `"patterns"` dictionary: station id to pattern;
`none` models `station_id not in patterns`. -/
def PatternTable : Type := String → Option Pattern

/-- Output dictionary of `get_prediction_for_stations`. -/
structure PredictionResult where
  bike_likelihood : Likelihood
  dock_likelihood : Likelihood
  bike_warning : Option String
  dock_warning : Option String
  net_flow_bikes : ℚ
  net_flow_docks : ℚ
  day : String
  hour : Nat
deriving DecidableEq

/-- Prediction stations: `nearby_stations[:NUM_PREDICTION_STATIONS]`. -/
def predictionStations (nearby_stations : List Station) : List Station :=
  nearby_stations.take NUM_PREDICTION_STATIONS

/-- Net-flow lookup for one station at the current day/hour; `0` when the
station has no pattern entry (matching the skipped loop body). -/
def netFlowLookup (patterns : PatternTable) (s : Station) (day : Fin 7) (hour : Nat) : ℚ :=
  match patterns s.id with
  | some p => p.netFlow day hour
  | none => 0

/-- Accumulator `total_bikes` over the prediction stations. -/
def totalBikes (nearby_stations : List Station) : Int :=
  (predictionStations nearby_stations).foldl (fun a s => a + s.bikes_available) 0

/-- Accumulator `total_docks` over the prediction stations. -/
def totalDocks (nearby_stations : List Station) : Int :=
  (predictionStations nearby_stations).foldl (fun a s => a + s.docks_available) 0

/-- Accumulator `total_capacity` over the prediction stations. -/
def totalCapacity (nearby_stations : List Station) : Int :=
  (predictionStations nearby_stations).foldl (fun a s => a + s.capacity) 0

/-- Accumulator `total_net_flow_bikes` (`+= net_flow`). -/
def totalNetFlowBikes (nearby_stations : List Station) (patterns : PatternTable)
    (day : Fin 7) (hour : Nat) : ℚ :=
  (predictionStations nearby_stations).foldl
    (fun a s => a + netFlowLookup patterns s day hour) 0

/-- Accumulator `total_net_flow_docks` (`-= net_flow`). -/
def totalNetFlowDocks (nearby_stations : List Station) (patterns : PatternTable)
    (day : Fin 7) (hour : Nat) : ℚ :=
  (predictionStations nearby_stations).foldl
    (fun a s => a - netFlowLookup patterns s day hour) 0

/-- Percentage `bike_pct = total_bikes / total_capacity * 100`, defined as `0`
when the aggregated capacity is not positive. -/
def bikePct (nearby_stations : List Station) : ℚ :=
  if totalCapacity nearby_stations > 0 then
    (totalBikes nearby_stations : ℚ) / (totalCapacity nearby_stations : ℚ) * 100
  else 0

/-- Percentage `dock_pct = total_docks / total_capacity * 100`, defined as `0`
when the aggregated capacity is not positive. -/
def dockPct (nearby_stations : List Station) : ℚ :=
  if totalCapacity nearby_stations > 0 then
    (totalDocks nearby_stations : ℚ) / (totalCapacity nearby_stations : ℚ) * 100
  else 0

/-- The likelihood ladder applied (identically) to the bike and dock sides:
HIGH when `pct >= 40` and the net flow is `>= -2`; else MEDIUM when
`pct >= 25` or (`pct >= 15` and the net flow is `> 0`); else LOW. -/
def classifyLikelihood (pct net_flow : ℚ) : Likelihood :=
  if pct ≥ 40 ∧ net_flow ≥ -2 then .HIGH
  else if pct ≥ 25 ∨ (pct ≥ 15 ∧ net_flow > 0) then .MEDIUM
  else .LOW

/-- The absolute floor override: upgrade `LOW` to `MEDIUM` when the raw count
meets the floor (`if total >= FLOOR and likelihood == "LOW": likelihood = "MEDIUM"`). -/
def floorOverride (total floor : Int) (likelihood : Likelihood) : Likelihood :=
  if total ≥ floor ∧ likelihood = .LOW then .MEDIUM else likelihood

/-- Percentage-based bike likelihood before the floor override. -/
def bikeLikelihoodPre (nearby_stations : List Station) (patterns : PatternTable)
    (day : Fin 7) (hour : Nat) : Likelihood :=
  classifyLikelihood (bikePct nearby_stations)
    (totalNetFlowBikes nearby_stations patterns day hour)

/-- Percentage-based dock likelihood before the floor override. -/
def dockLikelihoodPre (nearby_stations : List Station) (patterns : PatternTable)
    (day : Fin 7) (hour : Nat) : Likelihood :=
  classifyLikelihood (dockPct nearby_stations)
    (totalNetFlowDocks nearby_stations patterns day hour)

/-- One element of the `bike_depletion_warnings` list. -/
structure DepletionEvent where
  station : String
  hour : Int
  severity : ℚ
deriving DecidableEq

/-- The `bike_depletion_warnings` list: for each prediction station with a
pattern, the depletion-risk event of the current weekday, collected when
`0 < (risk_hour - hour) <= 4 and severity > 15`. -/
def bikeDepletionWarnings (nearby_stations : List Station) (patterns : PatternTable)
    (day : Fin 7) (hour : Nat) : List DepletionEvent :=
  (predictionStations nearby_stations).filterMap fun s =>
    match patterns s.id with
    | none => none
    | some p =>
      match p.depletionRisk day with
      | none => none
      | some dr =>
        if 0 < dr.hour - (hour : Int) ∧ dr.hour - (hour : Int) ≤ 4 ∧ dr.severity > 15 then
          some { station := s.name, hour := dr.hour, severity := dr.severity }
        else none

/-- Model of `min(bike_depletion_warnings, key=lambda x: x["hour"])`:
the first event attaining the minimal hour. -/
def earliestEvent (e : DepletionEvent) (rest : List DepletionEvent) : DepletionEvent :=
  rest.foldl (fun best x => if x.hour < best.hour then x else best) e

/-- The `bike_warning` message of `get_prediction_for_stations`. -/
def bikeWarningMsg (nearby_stations : List Station) (patterns : PatternTable)
    (day : Fin 7) (hour : Nat) : Option String :=
  match bikeDepletionWarnings nearby_stations patterns day hour with
  | [] => none
  | e :: rest =>
    some ("Often runs low by " ++ format_hour_12h (earliestEvent e rest).hour ++
      " on " ++ dayFullName day ++ "s")

/-- The future hours scanned by the fill-warning loop:
`range(hour + 1, min(hour + 5, 24))`. -/
def fillScanHours (hour : Nat) : List Nat :=
  List.range' (hour + 1) (min (hour + 5) 24 - (hour + 1))

/-- Scan a list of future hours for the first one at which the net flow of
this pattern exceeds `8` — the inner loop of the fill-warning scan, with its `break`. -/
def findFillHour (p : Pattern) (day : Fin 7) : List Nat → Option Nat
  | [] => none
  | future_hour :: rest =>
    if p.netFlow day future_hour > 8 then some future_hour
    else findFillHour p day rest

/-- First future hour within the scan window at which the net flow of this
pattern exceeds `8`. -/
def firstFillHour (p : Pattern) (day : Fin 7) (hour : Nat) : Option Nat :=
  findFillHour p day (fillScanHours hour)

/-- The `dock_warning` message of `get_prediction_for_stations`: evaluated only
when `total_net_flow_bikes > 5`; the outer loop keeps scanning the remaining
prediction stations after a match, each match overwriting `dock_warning`. -/
def dockWarningMsg (nearby_stations : List Station) (patterns : PatternTable)
    (day : Fin 7) (hour : Nat) : Option String :=
  if totalNetFlowBikes nearby_stations patterns day hour > 5 then
    (predictionStations nearby_stations).foldl
      (fun w s =>
        match patterns s.id with
        | none => w
        | some p =>
          match firstFillHour p day hour with
          | none => w
          | some future_hour =>
            some ("Fills up around " ++ format_hour_12h (future_hour : Int) ++
              " on " ++ dayFullName day ++ "s"))
      none
  else none

/-- Source `get_prediction_for_stations`: bike and dock likelihood predictions
for the nearest stations, `none` when the pattern document is unavailable. -/
def get_prediction_for_stations (nearby_stations : List Station)
    (predictions : Option PatternTable) (day : Fin 7) (hour : Nat) :
    Option PredictionResult :=
  match predictions with
  | none => none
  | some patterns =>
    some
      { bike_likelihood :=
          floorOverride (totalBikes nearby_stations) ABSOLUTE_BIKE_FLOOR
            (bikeLikelihoodPre nearby_stations patterns day hour)
        dock_likelihood :=
          floorOverride (totalDocks nearby_stations) ABSOLUTE_DOCK_FLOOR
            (dockLikelihoodPre nearby_stations patterns day hour)
        bike_warning := bikeWarningMsg nearby_stations patterns day hour
        dock_warning := dockWarningMsg nearby_stations patterns day hour
        net_flow_bikes := roundPy1 (totalNetFlowBikes nearby_stations patterns day hour)
        net_flow_docks := roundPy1 (totalNetFlowDocks nearby_stations patterns day hour)
        day := dayFullName day
        hour := hour }

/-- Source `likelihood_to_score`: `{"HIGH": 3, "MEDIUM": 2, "LOW": 1}`. -/
def likelihood_to_score (likelihood : Likelihood) : ℚ :=
  match likelihood with
  | .HIGH => 3
  | .MEDIUM => 2
  | .LOW => 1

/-- Source `score_to_likelihood`: map a numeric trip score back to a level. -/
def score_to_likelihood (score : ℚ) : Likelihood :=
  if score ≥ TRIP_HIGH_THRESHOLD then .HIGH
  else if score ≥ TRIP_MEDIUM_THRESHOLD then .MEDIUM
  else .LOW

/-- Source `calculate_trip_confidence`: gating rule, then weighted average. -/
def calculate_trip_confidence (bike_likelihood dock_likelihood : Likelihood) : Likelihood :=
  if bike_likelihood = .LOW then .LOW
  else
    score_to_likelihood
      (likelihood_to_score bike_likelihood * TRIP_BIKE_WEIGHT +
        likelihood_to_score dock_likelihood * TRIP_DOCK_WEIGHT)

/-- Zero-padded two-digit rendering of a minute value (`f"{m:02d}"`). -/
def pad2 (n : Int) : String :=
  if 0 ≤ n ∧ n < 10 then "0" ++ toString n else toString n

/-- The 12-hour clock formatting at the end of `calculate_leave_by_time`,
applied to the leave-by instant in minutes since midnight. -/
def formatLeaveBy (leave_by_minutes : ℚ) : String :=
  let leave_by_hour : Int := ⌊leave_by_minutes / 60⌋ % 24
  let leave_by_minute : Int := ⌊leave_by_minutes - (⌊leave_by_minutes / 60⌋ : ℚ) * 60⌋
  if leave_by_hour = 0 then "12:" ++ pad2 leave_by_minute ++ " AM"
  else if leave_by_hour = 12 then "12:" ++ pad2 leave_by_minute ++ " PM"
  else if leave_by_hour < 12 then
    toString leave_by_hour ++ ":" ++ pad2 leave_by_minute ++ " AM"
  else toString (leave_by_hour - 12) ++ ":" ++ pad2 leave_by_minute ++ " PM"

/-- Source `calculate_leave_by_time`. -/
def calculate_leave_by_time (current_bikes : Int) (net_flow_bikes : ℚ)
    (current_hour current_minute : Nat) : Option String :=
  if net_flow_bikes ≥ 0 then none
  else
    let bikes_above_floor : Int := current_bikes - ABSOLUTE_BIKE_FLOOR
    if bikes_above_floor ≤ 0 then none
    else
      let loss_rate : ℚ := |net_flow_bikes|
      if loss_rate = 0 then none
      else
        let hours_until_floor : ℚ := (bikes_above_floor : ℚ) / loss_rate
        let current_time_minutes : ℚ := (current_hour : ℚ) * 60 + (current_minute : ℚ)
        let depletion_time_minutes : ℚ := current_time_minutes + hours_until_floor * 60
        let leave_by_minutes : ℚ := depletion_time_minutes - LEAVE_BY_BUFFER_MINUTES
        if leave_by_minutes ≤ current_time_minutes then none
        else if leave_by_minutes - current_time_minutes > LEAVE_BY_MAX_HOURS * 60 then none
        else some (formatLeaveBy leave_by_minutes)

/-- The leave-by deadline instant in minutes since midnight: current time plus
`(current_bikes - floor) / |net_flow_bikes|` hours, minus the 30-minute
buffer. -/
def leaveByDeadline (current_bikes : Int) (net_flow_bikes : ℚ)
    (current_hour current_minute : Nat) : ℚ :=
  ((current_hour : ℚ) * 60 + (current_minute : ℚ)) +
    ((current_bikes - ABSOLUTE_BIKE_FLOOR : Int) : ℚ) / |net_flow_bikes| * 60 -
    LEAVE_BY_BUFFER_MINUTES

/-- Source `get_trip_message`: trip summary message by priority. -/
def get_trip_message (trip_confidence bike_likelihood dock_likelihood : Likelihood)
    (leave_by_time : Option String) (is_morning : Bool) : String :=
  let destination := if is_morning then "work" else "home"
  if trip_confidence = .LOW then "Consider transit/walking"
  else if trip_confidence = .HIGH then "Safe to bike"
  else if bike_likelihood = .HIGH ∧ dock_likelihood = .LOW then
    "Docks may be tight at " ++ destination
  else
    match leave_by_time with
    | some t => "Safe to bike, but leave by " ++ t
    | none => "Safe to bike"

/-- The `trip_summary` dictionary of `get_dashboard_data`. -/
structure TripSummary where
  confidence : Likelihood
  message : String
  leave_by : Option String
  bike_likelihood : Likelihood
  dock_likelihood : Likelihood
deriving DecidableEq

/-- The trip-summary assembly slice of `get_dashboard_data`: read the origin
bike likelihood, destination dock likelihood and origin net flow (defaulting
to LOW/LOW/0 when a prediction is absent), then compute confidence, leave-by
time and message. -/
def tripSummaryOf (origin_prediction destination_prediction : Option PredictionResult)
    (origin_bikes : Int) (hour minute : Nat) (is_morning : Bool) : TripSummary :=
  let bike_likelihood :=
    (origin_prediction.map PredictionResult.bike_likelihood).getD .LOW
  let dock_likelihood :=
    (destination_prediction.map PredictionResult.dock_likelihood).getD .LOW
  let net_flow_bikes :=
    (origin_prediction.map PredictionResult.net_flow_bikes).getD 0
  let trip_confidence := calculate_trip_confidence bike_likelihood dock_likelihood
  let leave_by_time := calculate_leave_by_time origin_bikes net_flow_bikes hour minute
  { confidence := trip_confidence
    message :=
      get_trip_message trip_confidence bike_likelihood dock_likelihood
        leave_by_time is_morning
    leave_by := leave_by_time
    bike_likelihood := bike_likelihood
    dock_likelihood := dock_likelihood }

/-- Modelled from the spec: the fill-warning scan as claim C3 words it — the
scan proceeds hour by hour from the hour after the current one, up to 4 hours
ahead bounded at hour 23, and the first hour at which the net-flow lookup of
ANY prediction station exceeds 8 triggers the message and stops the scan
entirely. -/
def specFillScan (nearby_stations : List Station) (patterns : PatternTable)
    (day : Fin 7) : List Nat → Option Nat
  | [] => none
  | future_hour :: rest =>
    if ∃ s ∈ predictionStations nearby_stations,
        netFlowLookup patterns s day future_hour > 8 then some future_hour
    else specFillScan nearby_stations patterns day rest

/-- Modelled from the spec: the whole fill-warning scan as claim C3 words it,
using `specFillScan` for the hour-major search. -/
def specFillWarning (nearby_stations : List Station) (patterns : PatternTable)
    (day : Fin 7) (hour : Nat) : Option String :=
  if totalNetFlowBikes nearby_stations patterns day hour > 5 then
    (specFillScan nearby_stations patterns day (fillScanHours hour)).map
      fun future_hour =>
        "Fills up around " ++ format_hour_12h (future_hour : Int) ++
          " on " ++ dayFullName day ++ "s"
  else none

/-- Concrete station for test inputs (position and extras irrelevant). -/
def mkTestStation (station_id station_name : String) (bikes docks cap : Int) : Station :=
  { id := station_id
    name := station_name
    address := station_name
    lat := 0
    lon := 0
    capacity := cap
    is_charging := false
    bikes_available := bikes
    ebikes_available := 0
    docks_available := docks
    distance := 0 }

/-- Fallback record used to name the concrete classifier outputs in witnesses. -/
def defaultPrediction : PredictionResult :=
  { bike_likelihood := .LOW
    dock_likelihood := .LOW
    bike_warning := none
    dock_warning := none
    net_flow_bikes := 0
    net_flow_docks := 0
    day := ""
    hour := 0 }

/-- Pattern table with no station entries. -/
def pt0 : PatternTable := fun _ => none

/-- Concrete input: one well-stocked station. -/
def wNs1 : List Station := [mkTestStation "S1" "Station One" 12 8 20]

/-- Classifier output on `wNs1` with the empty pattern table. -/
def wR1 : PredictionResult :=
  (get_prediction_for_stations wNs1 (some pt0) 0 9).getD defaultPrediction

/-- Concrete fill-warning input: two stations. -/
def c3Stations : List Station :=
  [mkTestStation "A" "Alfa" 10 10 20, mkTestStation "B" "Bravo" 10 10 20]

/-- Concrete pattern table on which the claimed hour-major first-match scan and
the station-major overwriting scan of the source disagree: station A has net
flow above 8 at hour 11, station B only at hour 13, and the current inflow
(hour 10) totals 6. -/
def c3Pat : PatternTable := fun station_id =>
  if station_id = "A" then
    some
      { netFlow := fun _ fh => if fh = 10 then 6 else if fh = 11 then 9 else 0
        depletionRisk := fun _ => none }
  else if station_id = "B" then
    some
      { netFlow := fun _ fh => if fh = 13 then 9 else 0
        depletionRisk := fun _ => none }
  else none

/-- Classifier output on the fill-warning input. -/
def c3R : PredictionResult :=
  (get_prediction_for_stations c3Stations (some c3Pat) 0 10).getD defaultPrediction

/-- Concrete depletion-warning input: one station whose pattern has a
depletion-risk event at hour 12 with severity 20. -/
def c8Pat : PatternTable := fun station_id =>
  if station_id = "D" then
    some
      { netFlow := fun _ _ => 0
        depletionRisk := fun _ => some { hour := 12, severity := 20 } }
  else none

/-- Station list for the depletion-warning witness. -/
def c8Stations : List Station := [mkTestStation "D" "Delta" 10 10 20]

/-- Classifier output on the depletion-warning input. -/
def c8R : PredictionResult :=
  (get_prediction_for_stations c8Stations (some c8Pat) 0 10).getD defaultPrediction

/-- Concrete pattern table with a fractional net flow for the negation witness. -/
def c6Pat : PatternTable := fun station_id =>
  if station_id = "S1" then
    some
      { netFlow := fun _ _ => 7 / 2
        depletionRisk := fun _ => none }
  else none

/-- Classifier output for the negation witness. -/
def c6R : PredictionResult :=
  (get_prediction_for_stations wNs1 (some c6Pat) 0 9).getD defaultPrediction

/-- Constant distance function: every station is equidistant, so feed order
must be fully preserved by the stable sort. -/
def dist0 : ℚ → ℚ → ℚ → ℚ → ℚ := fun _ _ _ _ => 0

/-- Concrete info feed with two stations. -/
def c7Info : List (String × StationInfo) :=
  [("A", { name := "Alfa", lat := 1, lon := 2, capacity := some 10,
           address := none, is_charging_station := none }),
   ("B", { name := "Bravo", lat := 3, lon := 4, capacity := some 20,
           address := some "2 Main St", is_charging_station := some true })]

/-- Concrete status feed: both stations in service. -/
def c7Status : List (String × StationStatus) :=
  [("A", { status := some "IN_SERVICE", num_bikes_available := some 5,
           num_ebikes_available := some 1, num_docks_available := some 4 }),
   ("B", { status := some "IN_SERVICE", num_bikes_available := some 2,
           num_ebikes_available := none, num_docks_available := some 18 })]

/-- Characterization of the HIGH branch of the likelihood ladder. -/
lemma classifyLikelihood_eq_HIGH (p n : ℚ) :
    classifyLikelihood p n = .HIGH ↔ (p ≥ 40 ∧ n ≥ -2) := by
  unfold classifyLikelihood
  split_ifs with h1 h2 <;> simp [*]

/-- Characterization of the MEDIUM branch of the likelihood ladder. -/
lemma classifyLikelihood_eq_MEDIUM (p n : ℚ) :
    classifyLikelihood p n = .MEDIUM ↔
      ¬(p ≥ 40 ∧ n ≥ -2) ∧ (p ≥ 25 ∨ (p ≥ 15 ∧ n > 0)) := by
  unfold classifyLikelihood
  split_ifs with h1 h2 <;> simp [*]

/-- Characterization of the LOW branch of the likelihood ladder. -/
lemma classifyLikelihood_eq_LOW (p n : ℚ) :
    classifyLikelihood p n = .LOW ↔
      ¬(p ≥ 40 ∧ n ≥ -2) ∧ ¬(p ≥ 25 ∨ (p ≥ 15 ∧ n > 0)) := by
  unfold classifyLikelihood
  split_ifs with h1 h2 <;> simp [*]

/-- Field-by-field description of the classifier output when the pattern
document is available. -/
lemma getPrediction_some {ns : List Station} {pt : PatternTable} {d : Fin 7}
    {h : Nat} {r : PredictionResult}
    (hr : get_prediction_for_stations ns (some pt) d h = some r) :
    r.bike_likelihood =
      floorOverride (totalBikes ns) ABSOLUTE_BIKE_FLOOR (bikeLikelihoodPre ns pt d h) ∧
    r.dock_likelihood =
      floorOverride (totalDocks ns) ABSOLUTE_DOCK_FLOOR (dockLikelihoodPre ns pt d h) ∧
    r.bike_warning = bikeWarningMsg ns pt d h ∧
    r.dock_warning = dockWarningMsg ns pt d h ∧
    r.net_flow_bikes = roundPy1 (totalNetFlowBikes ns pt d h) ∧
    r.net_flow_docks = roundPy1 (totalNetFlowDocks ns pt d h) := by
  simp only [get_prediction_for_stations, Option.some.injEq] at hr
  subst hr
  exact ⟨rfl, rfl, rfl, rfl, rfl, rfl⟩

/-- Folding with subtraction from a negated start is the negation of folding
with addition. -/
lemma foldl_sub_eq_neg_foldl_add (f : Station → ℚ) :
    ∀ (l : List Station) (a : ℚ),
      l.foldl (fun acc s => acc - f s) (-a) = -(l.foldl (fun acc s => acc + f s) a) := by
  intro l
  induction l with
  | nil => intro a; simp
  | cons s t ih =>
    intro a
    simp only [List.foldl_cons]
    have h1 : -a - f s = -(a + f s) := by ring
    rw [h1, ih]

/-- The dock net-flow accumulator is the exact negation of the bike one. -/
lemma totalNetFlowDocks_eq_neg (ns : List Station) (pt : PatternTable)
    (d : Fin 7) (h : Nat) :
    totalNetFlowDocks ns pt d h = -totalNetFlowBikes ns pt d h := by
  unfold totalNetFlowDocks totalNetFlowBikes
  have h0 := foldl_sub_eq_neg_foldl_add (fun s => netFlowLookup pt s d h)
    (predictionStations ns) 0
  simpa using h0

/-- Round-half-to-even is an odd function. -/
lemma roundHalfEven_neg (q : ℚ) : roundHalfEven (-q) = -roundHalfEven q := by
  unfold roundHalfEven
  by_cases hf : q - (⌊q⌋ : ℚ) = 0
  · have h1 : ⌊-q⌋ = -⌊q⌋ := by
      rw [show (-q : ℚ) = ((-⌊q⌋ : ℤ) : ℚ) by push_cast; linarith, Int.floor_intCast]
    rw [h1]
    have h2 : -q - ((-⌊q⌋ : ℤ) : ℚ) = 0 := by push_cast; linarith
    rw [h2, hf]
    norm_num
  · have hfr : Int.fract q ≠ 0 := by
      rw [← Int.self_sub_floor q]; exact hf
    have hneg := Int.fract_neg hfr
    have h2 := Int.self_sub_floor q
    have h3 := Int.self_sub_floor (-q)
    have he : (-q) - (⌊-q⌋ : ℚ) = 1 - (q - (⌊q⌋ : ℚ)) := by rw [h2, h3, hneg]
    have hfl : ⌊-q⌋ = -⌊q⌋ - 1 := by
      have h4 : ((⌊-q⌋ : ℤ) : ℚ) = ((-⌊q⌋ - 1 : ℤ) : ℚ) := by push_cast; linarith
      exact_mod_cast h4
    have hr0 : 0 < q - (⌊q⌋ : ℚ) :=
      lt_of_le_of_ne (by have := Int.floor_le q; linarith) (Ne.symm hf)
    have hr1 : q - (⌊q⌋ : ℚ) < 1 := by
      have := Int.lt_floor_add_one q; linarith
    have hx : -q - ((-⌊q⌋ - 1 : ℤ) : ℚ) = 1 - (q - (⌊q⌋ : ℚ)) := by push_cast; ring
    rw [hfl, hx]
    rcases lt_trichotomy (q - (⌊q⌋ : ℚ)) (1 / 2) with hlt | heq | hgt
    · rw [if_neg (show ¬(1 - (q - (⌊q⌋ : ℚ)) < 1 / 2) by linarith),
        if_pos (show 1 - (q - (⌊q⌋ : ℚ)) > 1 / 2 by linarith), if_pos hlt]
      ring
    · have c1 : ¬(1 - (q - (⌊q⌋ : ℚ)) < 1 / 2) := by rw [heq]; norm_num
      have c2 : ¬(1 - (q - (⌊q⌋ : ℚ)) > 1 / 2) := by rw [heq]; norm_num
      have c3 : ¬(q - (⌊q⌋ : ℚ) < 1 / 2) := by rw [heq]; norm_num
      have c4 : ¬(q - (⌊q⌋ : ℚ) > 1 / 2) := by rw [heq]; norm_num
      rw [if_neg c1, if_neg c2, if_neg c3, if_neg c4]
      by_cases hp : ⌊q⌋ % 2 = 0
      · rw [if_neg (show ¬((-⌊q⌋ - 1) % 2 = 0) by omega), if_pos hp]
        ring
      · rw [if_pos (show (-⌊q⌋ - 1) % 2 = 0 by omega), if_neg hp]
        ring
    · rw [if_pos (show 1 - (q - (⌊q⌋ : ℚ)) < 1 / 2 by linarith),
        if_neg (show ¬(q - (⌊q⌋ : ℚ) < 1 / 2) by linarith), if_pos hgt]
      ring

/-- The model of Python `round(x, 1)` is an odd function. -/
lemma roundPy1_neg (q : ℚ) : roundPy1 (-q) = -roundPy1 q := by
  unfold roundPy1
  rw [show -q * 10 = -(q * 10) by ring, roundHalfEven_neg]
  push_cast
  ring

/-- Repeated overwriting of an optional slot along a list keeps the value from
the last element that produces one. -/
lemma foldl_overwrite {α β γ : Type} (f : α → Option β) (g : β → γ) :
    ∀ (l : List α) (acc : Option γ),
      l.foldl (fun w s => (f s).elim w (fun b => some (g b))) acc =
        ((l.filterMap f).getLast?).elim acc (fun b => some (g b)) := by
  intro l
  induction l with
  | nil => intro acc; rfl
  | cons s t ih =>
    intro acc
    simp only [List.foldl_cons, List.filterMap_cons]
    cases hfs : f s with
    | none => exact ih acc
    | some b =>
      have hstep : (t.foldl (fun w s => (f s).elim w (fun b => some (g b)))
          ((some b).elim acc (fun x => some (g x)))) =
          ((t.filterMap f).getLast?).elim (some (g b)) (fun x => some (g x)) := ih _
      refine hstep.trans ?_
      cases hl : t.filterMap f with
      | nil => rfl
      | cons c m =>
        rw [List.getLast?_cons_cons]
        cases hg : (c :: m).getLast? with
        | none => exact absurd (List.getLast?_eq_none_iff.mp hg) (by simp)
        | some x => rfl

/-- The running minimum-by-hour is a member of the candidate list and has the
least hour (the behaviour of Python `min(..., key=lambda x: x["hour"])`). -/
lemma earliestEvent_spec :
    ∀ (rest : List DepletionEvent) (e : DepletionEvent),
      earliestEvent e rest ∈ e :: rest ∧
        ∀ x ∈ e :: rest, (earliestEvent e rest).hour ≤ x.hour := by
  intro rest
  induction rest with
  | nil =>
    intro e
    constructor
    · simp [earliestEvent]
    · intro x hx
      simp only [List.mem_cons, List.not_mem_nil, or_false] at hx
      subst hx
      simp [earliestEvent]
  | cons y t ih =>
    intro e
    by_cases hc : y.hour < e.hour
    · have hstep : earliestEvent e (y :: t) = earliestEvent y t := by
        unfold earliestEvent
        rw [List.foldl_cons, if_pos hc]
      obtain ⟨hmem, hle⟩ := ih y
      constructor
      · rw [hstep]
        exact List.mem_cons.mpr (Or.inr hmem)
      · intro x hx
        rw [hstep]
        have hhead := hle y (List.mem_cons_self _ _)
        rcases List.mem_cons.mp hx with rfl | hx2
        · omega
        · exact hle x hx2
    · have hstep : earliestEvent e (y :: t) = earliestEvent e t := by
        unfold earliestEvent
        rw [List.foldl_cons, if_neg hc]
      obtain ⟨hmem, hle⟩ := ih e
      constructor
      · rw [hstep]
        rcases List.mem_cons.mp hmem with hm | hm
        · rw [hm]; exact List.mem_cons_self _ _
        · exact List.mem_cons.mpr (Or.inr (List.mem_cons.mpr (Or.inr hm)))
      · intro x hx
        rw [hstep]
        have hhead := hle e (List.mem_cons_self _ _)
        rcases List.mem_cons.mp hx with rfl | hx2
        · exact hhead
        · rcases List.mem_cons.mp hx2 with rfl | hx3
          · omega
          · exact hle x (List.mem_cons.mpr (Or.inr hx3))

/-- Membership characterization of the collected depletion events. -/
lemma bikeDepletionWarnings_mem_iff (ns : List Station) (pt : PatternTable)
    (d : Fin 7) (h : Nat) :
    (∃ e, e ∈ bikeDepletionWarnings ns pt d h) ↔
      ∃ s ∈ predictionStations ns, ∃ p, pt s.id = some p ∧
        ∃ dr, p.depletionRisk d = some dr ∧
          0 < dr.hour - (h : Int) ∧ dr.hour - (h : Int) ≤ 4 ∧ dr.severity > 15 := by
  unfold bikeDepletionWarnings
  constructor
  · rintro ⟨e, he⟩
    rw [List.mem_filterMap] at he
    obtain ⟨s, hs, hfs⟩ := he
    refine ⟨s, hs, ?_⟩
    split at hfs
    next => exact absurd hfs (by simp)
    next p heq =>
      split at hfs
      next => exact absurd hfs (by simp)
      next dr heq2 =>
        split at hfs
        next hc => exact ⟨p, heq, dr, heq2, hc.1, hc.2.1, hc.2.2⟩
        next hc => exact absurd hfs (by simp)
  · rintro ⟨s, hs, p, hp, dr, hdr, h1, h2, h3⟩
    refine ⟨{ station := s.name, hour := dr.hour, severity := dr.severity },
      List.mem_filterMap.mpr ⟨s, hs, ?_⟩⟩
    rw [hp]
    show ((match p.depletionRisk d with
      | none => none
      | some dr =>
        if 0 < dr.hour - (h : Int) ∧ dr.hour - (h : Int) ≤ 4 ∧ dr.severity > 15 then
          some { station := s.name, hour := dr.hour, severity := dr.severity }
        else none : Option DepletionEvent)) =
      some { station := s.name, hour := dr.hour, severity := dr.severity }
    rw [hdr]
    show ((if 0 < dr.hour - (h : Int) ∧ dr.hour - (h : Int) ≤ 4 ∧ dr.severity > 15 then
        some { station := s.name, hour := dr.hour, severity := dr.severity }
      else none : Option DepletionEvent)) =
      some { station := s.name, hour := dr.hour, severity := dr.severity }
    exact if_pos ⟨h1, h2, h3⟩

/-- C1: For every list of prediction stations and every available pattern
table, the classifier assigns the percentage-based likelihood by the ladder
HIGH iff `pct >= 40` and the relevant net flow `>= -2`; else MEDIUM iff
`pct >= 25` or (`pct >= 15` and the relevant net flow `> 0`); LOW otherwise,
where `pct = total / total_capacity * 100` and is `0` when the aggregated
capacity is `0`; the same rule is applied independently to the bike side
(with `total_net_flow_bikes`) and the dock side (with `total_net_flow_docks`),
before the absolute floor override. -/
theorem C1_likelihood_rule (ns : List Station) (pt : PatternTable) (d : Fin 7) (h : Nat) :
    (bikeLikelihoodPre ns pt d h = .HIGH ↔
      bikePct ns ≥ 40 ∧ totalNetFlowBikes ns pt d h ≥ -2) ∧
    (bikeLikelihoodPre ns pt d h = .MEDIUM ↔
      ¬(bikePct ns ≥ 40 ∧ totalNetFlowBikes ns pt d h ≥ -2) ∧
        (bikePct ns ≥ 25 ∨ (bikePct ns ≥ 15 ∧ totalNetFlowBikes ns pt d h > 0))) ∧
    (bikeLikelihoodPre ns pt d h = .LOW ↔
      ¬(bikePct ns ≥ 40 ∧ totalNetFlowBikes ns pt d h ≥ -2) ∧
        ¬(bikePct ns ≥ 25 ∨ (bikePct ns ≥ 15 ∧ totalNetFlowBikes ns pt d h > 0))) ∧
    (dockLikelihoodPre ns pt d h = .HIGH ↔
      dockPct ns ≥ 40 ∧ totalNetFlowDocks ns pt d h ≥ -2) ∧
    (dockLikelihoodPre ns pt d h = .MEDIUM ↔
      ¬(dockPct ns ≥ 40 ∧ totalNetFlowDocks ns pt d h ≥ -2) ∧
        (dockPct ns ≥ 25 ∨ (dockPct ns ≥ 15 ∧ totalNetFlowDocks ns pt d h > 0))) ∧
    (dockLikelihoodPre ns pt d h = .LOW ↔
      ¬(dockPct ns ≥ 40 ∧ totalNetFlowDocks ns pt d h ≥ -2) ∧
        ¬(dockPct ns ≥ 25 ∨ (dockPct ns ≥ 15 ∧ totalNetFlowDocks ns pt d h > 0))) ∧
    (bikePct ns = if totalCapacity ns > 0 then
      (totalBikes ns : ℚ) / (totalCapacity ns : ℚ) * 100 else 0) ∧
    (dockPct ns = if totalCapacity ns > 0 then
      (totalDocks ns : ℚ) / (totalCapacity ns : ℚ) * 100 else 0) ∧
    (∀ r : PredictionResult, get_prediction_for_stations ns (some pt) d h = some r →
      r.bike_likelihood = floorOverride (totalBikes ns) ABSOLUTE_BIKE_FLOOR
        (bikeLikelihoodPre ns pt d h) ∧
      r.dock_likelihood = floorOverride (totalDocks ns) ABSOLUTE_DOCK_FLOOR
        (dockLikelihoodPre ns pt d h)) := by
  refine ⟨classifyLikelihood_eq_HIGH _ _, classifyLikelihood_eq_MEDIUM _ _,
    classifyLikelihood_eq_LOW _ _, classifyLikelihood_eq_HIGH _ _,
    classifyLikelihood_eq_MEDIUM _ _, classifyLikelihood_eq_LOW _ _, rfl, rfl, ?_⟩
  intro r hr
  exact ⟨(getPrediction_some hr).1, (getPrediction_some hr).2.1⟩

/-- Witness for C1 at a concrete input. -/
theorem C1_witness :
    get_prediction_for_stations wNs1 (some pt0) 0 9 = some wR1 ∧
    wR1.bike_likelihood = floorOverride (totalBikes wNs1) ABSOLUTE_BIKE_FLOOR
      (bikeLikelihoodPre wNs1 pt0 0 9) ∧
    wR1.dock_likelihood = floorOverride (totalDocks wNs1) ABSOLUTE_DOCK_FLOOR
      (dockLikelihoodPre wNs1 pt0 0 9) := by
  refine ⟨rfl, ?_⟩
  exact (C1_likelihood_rule wNs1 pt0 0 9).2.2.2.2.2.2.2.2 wR1 rfl

/-- C2: LOW origin bikes gate the trip to LOW unconditionally; otherwise the
confidence is determined by the weighted score with thresholds 2.5 and 1.8;
bike HIGH with dock LOW scores 2.2 and yields MEDIUM. -/
theorem C2_trip_confidence (bl dl : Likelihood) :
    (bl = .LOW → calculate_trip_confidence bl dl = .LOW) ∧
    (bl ≠ .LOW →
      ((calculate_trip_confidence bl dl = .HIGH ↔
          likelihood_to_score bl * TRIP_BIKE_WEIGHT +
            likelihood_to_score dl * TRIP_DOCK_WEIGHT ≥ 2.5) ∧
        (calculate_trip_confidence bl dl = .MEDIUM ↔
          (1.8 ≤ likelihood_to_score bl * TRIP_BIKE_WEIGHT +
              likelihood_to_score dl * TRIP_DOCK_WEIGHT ∧
            likelihood_to_score bl * TRIP_BIKE_WEIGHT +
              likelihood_to_score dl * TRIP_DOCK_WEIGHT < 2.5)) ∧
        (calculate_trip_confidence bl dl = .LOW ↔
          likelihood_to_score bl * TRIP_BIKE_WEIGHT +
            likelihood_to_score dl * TRIP_DOCK_WEIGHT < 1.8))) ∧
    likelihood_to_score .HIGH = 3 ∧ likelihood_to_score .MEDIUM = 2 ∧
    likelihood_to_score .LOW = 1 ∧ TRIP_BIKE_WEIGHT = 0.6 ∧ TRIP_DOCK_WEIGHT = 0.4 ∧
    likelihood_to_score .HIGH * TRIP_BIKE_WEIGHT +
      likelihood_to_score .LOW * TRIP_DOCK_WEIGHT = 2.2 ∧
    calculate_trip_confidence .HIGH .LOW = .MEDIUM := by
  cases bl <;> cases dl <;>
    norm_num [calculate_trip_confidence, score_to_likelihood, likelihood_to_score,
      TRIP_BIKE_WEIGHT, TRIP_DOCK_WEIGHT, TRIP_HIGH_THRESHOLD, TRIP_MEDIUM_THRESHOLD] <;>
    decide

/-- Witness for C2 at the HIGH/LOW pair. -/
theorem C2_witness :
    calculate_trip_confidence .HIGH .LOW = .MEDIUM ↔
      (1.8 ≤ likelihood_to_score .HIGH * TRIP_BIKE_WEIGHT +
          likelihood_to_score .LOW * TRIP_DOCK_WEIGHT ∧
        likelihood_to_score .HIGH * TRIP_BIKE_WEIGHT +
          likelihood_to_score .LOW * TRIP_DOCK_WEIGHT < 2.5) :=
  ((C2_trip_confidence .HIGH .LOW).2.1 (by decide)).2.1

/-- C10: closed form of the aggregator over the nine likelihood pairs. -/
theorem C10_confidence_table (bl dl : Likelihood) :
    (calculate_trip_confidence bl dl = .HIGH ↔ bl = .HIGH ∧ dl ≠ .LOW) ∧
    (calculate_trip_confidence bl dl = .LOW ↔
      bl = .LOW ∨ (bl = .MEDIUM ∧ dl = .LOW)) ∧
    (calculate_trip_confidence bl dl = .MEDIUM ↔
      ¬(bl = .HIGH ∧ dl ≠ .LOW) ∧ ¬(bl = .LOW ∨ (bl = .MEDIUM ∧ dl = .LOW))) := by
  cases bl <;> cases dl <;>
    norm_num [calculate_trip_confidence, score_to_likelihood, likelihood_to_score,
      TRIP_BIKE_WEIGHT, TRIP_DOCK_WEIGHT, TRIP_HIGH_THRESHOLD, TRIP_MEDIUM_THRESHOLD] <;>
    decide

/-- C5: the absolute floor override upgrades a percentage-based LOW to MEDIUM
exactly when the raw aggregated count is at least 5, never changes HIGH or
MEDIUM, and never turns LOW into anything other than MEDIUM; the classifier
applies it with the bike total on the bike side and the dock total on the
dock side. -/
theorem C5_floor_override (t : Int) (l : Likelihood) :
    (l = .LOW → floorOverride t ABSOLUTE_BIKE_FLOOR l =
      (if t ≥ 5 then .MEDIUM else .LOW)) ∧
    (l ≠ .LOW → floorOverride t ABSOLUTE_BIKE_FLOOR l = l) ∧
    (floorOverride t ABSOLUTE_BIKE_FLOOR l = l ∨
      floorOverride t ABSOLUTE_BIKE_FLOOR l = .MEDIUM) ∧
    ABSOLUTE_DOCK_FLOOR = ABSOLUTE_BIKE_FLOOR ∧
    (∀ (ns : List Station) (pt : PatternTable) (d : Fin 7) (h : Nat)
        (r : PredictionResult),
      get_prediction_for_stations ns (some pt) d h = some r →
        r.bike_likelihood = floorOverride (totalBikes ns) ABSOLUTE_BIKE_FLOOR
          (bikeLikelihoodPre ns pt d h) ∧
        r.dock_likelihood = floorOverride (totalDocks ns) ABSOLUTE_DOCK_FLOOR
          (dockLikelihoodPre ns pt d h)) := by
  refine ⟨?_, ?_, ?_, rfl, ?_⟩
  · intro hl
    subst hl
    unfold floorOverride ABSOLUTE_BIKE_FLOOR
    by_cases ht : t ≥ 5
    · rw [if_pos ⟨ht, rfl⟩, if_pos ht]
    · rw [if_neg (fun hcon => ht hcon.1), if_neg ht]
  · intro hl
    unfold floorOverride
    rw [if_neg (fun hcon => hl hcon.2)]
  · unfold floorOverride
    split_ifs
    · right; rfl
    · left; rfl
  · intro ns pt d h r hr
    exact ⟨(getPrediction_some hr).1, (getPrediction_some hr).2.1⟩

/-- Witness for C5 at concrete totals. -/
theorem C5_witness :
    floorOverride 7 ABSOLUTE_BIKE_FLOOR .LOW = (if (7 : Int) ≥ 5 then .MEDIUM else .LOW) ∧
    floorOverride 3 ABSOLUTE_BIKE_FLOOR .HIGH = .HIGH :=
  ⟨(C5_floor_override 7 .LOW).1 rfl, (C5_floor_override 3 .HIGH).2.1 (by decide)⟩

/-- Unfolded branch structure of `calculate_leave_by_time`. -/
lemma calculate_leave_by_time_eq (b : Int) (nf : ℚ) (hh mm : Nat) :
    calculate_leave_by_time b nf hh mm =
      if nf ≥ 0 then none
      else if b - ABSOLUTE_BIKE_FLOOR ≤ 0 then none
      else if |nf| = 0 then none
      else if leaveByDeadline b nf hh mm ≤ (hh : ℚ) * 60 + (mm : ℚ) then none
      else if leaveByDeadline b nf hh mm - ((hh : ℚ) * 60 + (mm : ℚ)) >
          LEAVE_BY_MAX_HOURS * 60 then none
      else some (formatLeaveBy (leaveByDeadline b nf hh mm)) := rfl

/-- C4: the leave-by time is `none` exactly when the flow is not depleting, the
origin is already at or below the floor, the deadline has passed, or the
deadline is more than 60 minutes away; otherwise it is the formatted
deadline. -/
theorem C4_leave_by (b : Int) (nf : ℚ) (hh mm : Nat) :
    (calculate_leave_by_time b nf hh mm = none ↔
      (nf ≥ 0 ∨ b - 5 ≤ 0 ∨
        leaveByDeadline b nf hh mm ≤ (hh : ℚ) * 60 + (mm : ℚ) ∨
        leaveByDeadline b nf hh mm - ((hh : ℚ) * 60 + (mm : ℚ)) > 60)) ∧
    (¬(nf ≥ 0 ∨ b - 5 ≤ 0 ∨
        leaveByDeadline b nf hh mm ≤ (hh : ℚ) * 60 + (mm : ℚ) ∨
        leaveByDeadline b nf hh mm - ((hh : ℚ) * 60 + (mm : ℚ)) > 60) →
      calculate_leave_by_time b nf hh mm =
        some (formatLeaveBy (leaveByDeadline b nf hh mm))) := by
  have hmax : LEAVE_BY_MAX_HOURS * 60 = (60 : ℚ) := by
    norm_num [LEAVE_BY_MAX_HOURS]
  rw [calculate_leave_by_time_eq, hmax]
  have hfloor : ABSOLUTE_BIKE_FLOOR = (5 : Int) := rfl
  rw [hfloor]
  split_ifs with h1 h2 h3 h4 h5
  · exact ⟨iff_of_true rfl (Or.inl h1), fun hn => absurd (Or.inl h1) hn⟩
  · exact ⟨iff_of_true rfl (Or.inr (Or.inl h2)), fun hn => absurd (Or.inr (Or.inl h2)) hn⟩
  · have hlt : nf < 0 := lt_of_not_ge h1
    exact absurd h3 (abs_ne_zero.mpr (ne_of_lt hlt))
  · exact ⟨iff_of_true rfl (Or.inr (Or.inr (Or.inl h4))),
      fun hn => absurd (Or.inr (Or.inr (Or.inl h4))) hn⟩
  · exact ⟨iff_of_true rfl (Or.inr (Or.inr (Or.inr h5))),
      fun hn => absurd (Or.inr (Or.inr (Or.inr h5))) hn⟩
  · refine ⟨iff_of_false (by simp) ?_, fun _ => rfl⟩
    rintro (hc | hc | hc | hc)
    · exact h1 hc
    · exact h2 hc
    · exact h4 hc
    · exact h5 hc

/-- Witness for C4: 10 bikes, net flow -6/h at 8:00 gives a shown deadline. -/
theorem C4_witness :
    calculate_leave_by_time 10 (-6) 8 0 =
      some (formatLeaveBy (leaveByDeadline 10 (-6) 8 0)) ∧
    formatLeaveBy (leaveByDeadline 10 (-6) 8 0) = "8:20 AM" := by
  have hD : leaveByDeadline 10 (-6) 8 0 = 500 := by
    norm_num [leaveByDeadline, ABSOLUTE_BIKE_FLOOR, LEAVE_BY_BUFFER_MINUTES]
  constructor
  · apply (C4_leave_by 10 (-6) 8 0).2
    rw [hD]
    norm_num
  · rw [hD]
    have h1 : ⌊(500 : ℚ) / 60⌋ = 8 := by norm_num
    simp only [formatLeaveBy, h1]
    norm_num [pad2]
    rfl

/-- C6: in every `PredictionResult` the classifier produces, the dock net flow
field is the negation of the bike net flow field. -/
theorem C6_net_flow_negation (ns : List Station) (pt : PatternTable) (d : Fin 7)
    (h : Nat) (r : PredictionResult)
    (hr : get_prediction_for_stations ns (some pt) d h = some r) :
    r.net_flow_docks = -r.net_flow_bikes := by
  obtain ⟨-, -, -, -, hb, hd⟩ := getPrediction_some hr
  rw [hb, hd, totalNetFlowDocks_eq_neg, roundPy1_neg]

/-- Witness for C6 on a concrete station and pattern table. -/
theorem C6_witness :
    get_prediction_for_stations wNs1 (some c6Pat) 0 9 = some c6R ∧
    c6R.net_flow_docks = -c6R.net_flow_bikes :=
  ⟨rfl, C6_net_flow_negation wNs1 c6Pat 0 9 c6R rfl⟩

/-- C9: an unavailable pattern document makes the classifier return `none` for
every station list, and the dashboard treats absent predictions as LOW bike
likelihood, LOW dock likelihood and net flow 0, still producing a complete
trip summary. -/
theorem C9_unavailable_repository (ns : List Station) (d : Fin 7) (h : Nat)
    (p q : Option PredictionResult) (b : Int) (hh mm : Nat) (im : Bool) :
    get_prediction_for_stations ns none d h = none ∧
    tripSummaryOf none q b hh mm im =
      { confidence := .LOW
        message := "Consider transit/walking"
        leave_by := calculate_leave_by_time b 0 hh mm
        bike_likelihood := .LOW
        dock_likelihood := (q.map PredictionResult.dock_likelihood).getD .LOW } ∧
    calculate_leave_by_time b 0 hh mm = none ∧
    (tripSummaryOf p none b hh mm im).dock_likelihood = .LOW ∧
    tripSummaryOf none none b hh mm im =
      { confidence := .LOW
        message := "Consider transit/walking"
        leave_by := none
        bike_likelihood := .LOW
        dock_likelihood := .LOW } := by
  have hlb : calculate_leave_by_time b 0 hh mm = none := by
    rw [calculate_leave_by_time_eq, if_pos (le_refl (0 : ℚ))]
  refine ⟨rfl, rfl, hlb, rfl, ?_⟩
  have h2 : tripSummaryOf none none b hh mm im =
      { confidence := .LOW
        message := "Consider transit/walking"
        leave_by := calculate_leave_by_time b 0 hh mm
        bike_likelihood := .LOW
        dock_likelihood := .LOW } := rfl
  rw [h2, hlb]

/-- C8: a bike depletion warning is emitted iff some prediction station has a
depletion-risk entry for the current weekday within the (0,4]-hour window with
severity above 15, and the message is produced from an event with the earliest
risk hour. -/
theorem C8_depletion_warning (ns : List Station) (pt : PatternTable) (d : Fin 7)
    (h : Nat) (r : PredictionResult)
    (hr : get_prediction_for_stations ns (some pt) d h = some r) :
    (r.bike_warning ≠ none ↔
      ∃ s ∈ predictionStations ns, ∃ p, pt s.id = some p ∧
        ∃ dr, p.depletionRisk d = some dr ∧
          0 < dr.hour - (h : Int) ∧ dr.hour - (h : Int) ≤ 4 ∧ dr.severity > 15) ∧
    (∀ m, r.bike_warning = some m →
      ∃ e ∈ bikeDepletionWarnings ns pt d h,
        (∀ x ∈ bikeDepletionWarnings ns pt d h, e.hour ≤ x.hour) ∧
        m = "Often runs low by " ++ format_hour_12h e.hour ++ " on " ++
          dayFullName d ++ "s") := by
  obtain ⟨-, -, hw, -, -, -⟩ := getPrediction_some hr
  constructor
  · rw [hw, ← bikeDepletionWarnings_mem_iff]
    unfold bikeWarningMsg
    cases hws : bikeDepletionWarnings ns pt d h with
    | nil => simp
    | cons e rest =>
      exact iff_of_true (by simp) ⟨e, List.mem_cons_self _ _⟩
  · intro m hm
    rw [hw] at hm
    unfold bikeWarningMsg at hm
    rcases hws : bikeDepletionWarnings ns pt d h with _ | ⟨e, rest⟩
    · rw [hws] at hm
      exact absurd hm (by simp)
    · rw [hws] at hm
      refine ⟨earliestEvent e rest, ?_, ?_, ?_⟩
      · exact (earliestEvent_spec rest e).1
      · intro x hx
        exact (earliestEvent_spec rest e).2 x hx
      · exact (Option.some.inj hm).symm

/-- Witness for C8 on a concrete depletion-risk pattern. -/
theorem C8_witness :
    get_prediction_for_stations c8Stations (some c8Pat) 0 10 = some c8R ∧
    (c8R.bike_warning ≠ none ↔
      ∃ s ∈ predictionStations c8Stations, ∃ p, c8Pat s.id = some p ∧
        ∃ dr, p.depletionRisk 0 = some dr ∧
          0 < dr.hour - ((10 : Nat) : Int) ∧ dr.hour - ((10 : Nat) : Int) ≤ 4 ∧
          dr.severity > 15) :=
  ⟨rfl, (C8_depletion_warning c8Stations c8Pat 0 10 c8R rfl).1⟩

/-- Counterexample to C3 as stated: on `c3Stations`/`c3Pat` at hour 10 the
scan in the source does not stop at the first matching hour across stations —
the later station Bravo overwrites the earlier match of Alfa, producing "1 PM" where
the claimed hour-major first-match scan produces "11 AM". -/
theorem C3_counterexample :
    get_prediction_for_stations c3Stations (some c3Pat) 0 10 = some c3R ∧
    c3R.dock_warning = some "Fills up around 1 PM on Mondays" ∧
    specFillWarning c3Stations c3Pat 0 10 = some "Fills up around 11 AM on Mondays" ∧
    c3R.dock_warning ≠ specFillWarning c3Stations c3Pat 0 10 := by
  have hLA : netFlowLookup c3Pat (mkTestStation "A" "Alfa" 10 10 20) 0 10 = 6 := rfl
  have hLB : netFlowLookup c3Pat (mkTestStation "B" "Bravo" 10 10 20) 0 10 = 0 := rfl
  have hps : predictionStations c3Stations = c3Stations := rfl
  have hnf : totalNetFlowBikes c3Stations c3Pat 0 10 = 6 := by
    unfold totalNetFlowBikes
    rw [hps]
    simp only [c3Stations, List.foldl_cons, List.foldl_nil, hLA, hLB]
    norm_num
  have hdock : dockWarningMsg c3Stations c3Pat 0 10 =
      some "Fills up around 1 PM on Mondays" := by
    unfold dockWarningMsg
    rw [hnf, if_pos (show (6 : ℚ) > 5 by decide)]
    rfl
  have hspec : specFillWarning c3Stations c3Pat 0 10 =
      some "Fills up around 11 AM on Mondays" := by
    unfold specFillWarning
    rw [hnf, if_pos (show (6 : ℚ) > 5 by decide)]
    rfl
  have hcw : c3R.dock_warning = dockWarningMsg c3Stations c3Pat 0 10 :=
    (getPrediction_some (show get_prediction_for_stations c3Stations (some c3Pat) 0 10 =
      some c3R from rfl)).2.2.2.1
  refine ⟨rfl, hcw.trans hdock, hspec, ?_⟩
  rw [hcw.trans hdock, hspec]
  decide

/-- C3 as amended: the fill warning is evaluated only when
`total_net_flow_bikes > 5`; each prediction station with a pattern is scanned
hour-major for its own first hour with net flow above 8, the inner break only
ends the scan of that station, and each later match overwrites the message, so
the final message comes from the last station in order with a match, at the
earliest matching hour of that station. -/
theorem C3_amended_overwrite (ns : List Station) (pt : PatternTable) (d : Fin 7)
    (h : Nat) (r : PredictionResult)
    (hr : get_prediction_for_stations ns (some pt) d h = some r) :
    r.dock_warning =
      (if totalNetFlowBikes ns pt d h > 5 then
        (((predictionStations ns).filterMap fun s =>
            (pt s.id).bind fun p => firstFillHour p d h).getLast?).map
          (fun (future_hour : Nat) => "Fills up around " ++
            format_hour_12h (future_hour : Int) ++ " on " ++ dayFullName d ++ "s")
      else none) := by
  obtain ⟨-, -, -, hw, -, -⟩ := getPrediction_some hr
  rw [hw]
  unfold dockWarningMsg
  split_ifs with hnf
  · have hext : (predictionStations ns).foldl
        (fun w s =>
          match pt s.id with
          | none => w
          | some p =>
            match firstFillHour p d h with
            | none => w
            | some future_hour =>
              some ("Fills up around " ++ format_hour_12h (future_hour : Int) ++
                " on " ++ dayFullName d ++ "s"))
        none =
      (predictionStations ns).foldl
        (fun w s =>
          ((pt s.id).bind fun p => firstFillHour p d h).elim w
            (fun (future_hour : Nat) =>
              some ("Fills up around " ++ format_hour_12h (future_hour : Int) ++
                " on " ++ dayFullName d ++ "s")))
        none := by
      apply List.foldl_ext
      intro acc s hs
      cases pt s.id with
      | none => rfl
      | some p =>
        show (match firstFillHour p d h with
          | none => acc
          | some future_hour =>
            some ("Fills up around " ++ format_hour_12h (future_hour : Int) ++
              " on " ++ dayFullName d ++ "s")) =
          (firstFillHour p d h).elim acc
            (fun (future_hour : Nat) =>
              some ("Fills up around " ++ format_hour_12h (future_hour : Int) ++
                " on " ++ dayFullName d ++ "s"))
        cases firstFillHour p d h with
        | none => rfl
        | some future_hour => rfl
    rw [hext, foldl_overwrite (fun (s : Station) => (pt s.id).bind fun p => firstFillHour p d h)
      (fun (future_hour : Nat) => "Fills up around " ++
        format_hour_12h (future_hour : Int) ++ " on " ++ dayFullName d ++ "s")]
    cases hgl : ((predictionStations ns).filterMap fun s =>
        (pt s.id).bind fun p => firstFillHour p d h).getLast? with
    | none => rfl
    | some b => rfl
  · rfl

/-- Witness for the amended C3 on the concrete two-station input. -/
theorem C3_amended_witness :
    get_prediction_for_stations c3Stations (some c3Pat) 0 10 = some c3R ∧
    c3R.dock_warning =
      (if totalNetFlowBikes c3Stations c3Pat 0 10 > 5 then
        (((predictionStations c3Stations).filterMap fun s =>
            (c3Pat s.id).bind fun p => firstFillHour p 0 10).getLast?).map
          (fun (future_hour : Nat) => "Fills up around " ++
            format_hour_12h (future_hour : Int) ++ " on " ++ dayFullName 0 ++ "s")
      else none) :=
  ⟨rfl, C3_amended_overwrite c3Stations c3Pat 0 10 c3R rfl⟩

/-- C7: the locator returns exactly the stations present in both feeds whose
status is "IN_SERVICE", stably sorted non-decreasing by the distance function,
truncated to the first `n`, with result length `min n #eligible`; proved for
every distance function, hence for the haversine distance in particular. -/
theorem C7_locator (dist : ℚ → ℚ → ℚ → ℚ → ℚ) (tlat tlon : ℚ)
    (info : List (String × StationInfo)) (status : List (String × StationStatus))
    (n : Nat) :
    find_nearby_stations dist tlat tlon info status n =
      ((eligibleStations dist tlat tlon info status).mergeSort
        fun a b => decide (a.distance ≤ b.distance)).take n ∧
    (find_nearby_stations dist tlat tlon info status n).length =
      min n (eligibleStations dist tlat tlon info status).length ∧
    ((eligibleStations dist tlat tlon info status).mergeSort
      fun a b => decide (a.distance ≤ b.distance)).Perm
        (eligibleStations dist tlat tlon info status) ∧
    List.Pairwise (fun a b : Station => a.distance ≤ b.distance)
      ((eligibleStations dist tlat tlon info status).mergeSort
        fun a b => decide (a.distance ≤ b.distance)) ∧
    (∀ l2 : List Station,
      List.Pairwise (fun a b : Station => a.distance ≤ b.distance) l2 →
      l2.Sublist (eligibleStations dist tlat tlon info status) →
      l2.Sublist ((eligibleStations dist tlat tlon info status).mergeSort
        fun a b => decide (a.distance ≤ b.distance))) ∧
    (∀ s : Station, s ∈ eligibleStations dist tlat tlon info status ↔
      ∃ pr ∈ info, ∃ st, status.lookup pr.1 = some st ∧
        st.status = some "IN_SERVICE" ∧
        s = mkStationEntry dist tlat tlon pr.1 pr.2 st) := by
  have htrans : ∀ a b c : Station, decide (a.distance ≤ b.distance) = true →
      decide (b.distance ≤ c.distance) = true →
      decide (a.distance ≤ c.distance) = true := by
    intro a b c hab hbc
    rw [decide_eq_true_eq] at hab hbc ⊢
    exact le_trans hab hbc
  have htotal : ∀ a b : Station,
      (decide (a.distance ≤ b.distance) || decide (b.distance ≤ a.distance)) = true := by
    intro a b
    rcases le_total a.distance b.distance with hle | hle <;> simp [hle]
  refine ⟨rfl, ?_, List.mergeSort_perm _ _, ?_, ?_, ?_⟩
  · rw [find_nearby_stations, List.length_take, List.length_mergeSort]
  · exact (List.sorted_mergeSort htrans htotal _).imp
      (fun hab => by rwa [decide_eq_true_eq] at hab)
  · intro l2 hp hsub
    exact List.sublist_mergeSort htrans htotal
      (hp.imp (fun hab => by simpa using hab)) hsub
  · intro s
    unfold eligibleStations
    rw [List.mem_filterMap]
    constructor
    · rintro ⟨pr, hpr, hf⟩
      refine ⟨pr, hpr, ?_⟩
      split at hf
      next => exact absurd hf (by simp)
      next st heq =>
        split at hf
        next hst => exact ⟨st, heq, hst, (Option.some.inj hf).symm⟩
        next => exact absurd hf (by simp)
    · rintro ⟨pr, hpr, st, hst, hin, hs⟩
      refine ⟨pr, hpr, ?_⟩
      rw [hst]
      show (if st.status = some "IN_SERVICE" then
          some (mkStationEntry dist tlat tlon pr.1 pr.2 st)
        else none) = some s
      rw [if_pos hin, hs]

/-- Witness for C7: with a constant distance function, two equal-distance
in-service stations keep their feed order through the sort. -/
theorem C7_witness :
    (eligibleStations dist0 0 0 c7Info c7Status).Sublist
      ((eligibleStations dist0 0 0 c7Info c7Status).mergeSort
        fun a b => decide (a.distance ≤ b.distance)) :=
  (C7_locator dist0 0 0 c7Info c7Status 5).2.2.2.2.1
    (eligibleStations dist0 0 0 c7Info c7Status) (by decide) (List.Sublist.refl _)
